import Mathlib

/-!
Verification of the WayRig feature set against its design specification.

Each Python function relevant to the verified properties is shallowly
embedded as an executable Lean definition, translated from the source
files under the repository. Where a definition depends on code that is
not part of this repository snapshot (the rigify base classes and the
generation engine), the model follows the specification text and says so
in its doc comment.
-/

namespace WayRig

/-!
Section: src/utils/rig.py

A rig component object is modelled by its chain of rigify_parent links:
the head of the list is the object itself, the tail is the parent object
(itself a chain). Python object identity between rig objects corresponds
to equality of chains, and None corresponds to Option.none. A valid rig
object is a nonempty list.
-/

/-- A rig component object, as seen by rig_is_child: itself plus its
ancestor chain. -/
abbrev RigObj := List Nat

/-- The rigify_parent attribute: the tail of the chain, or none for a
rig with no parent. -/
def rigify_parent : RigObj → Option RigObj
  | [] => none
  | [_] => none
  | _ :: xs => some xs

/-- The while loop of rig_is_child: starting from a rig object, compare
against parent with object identity, then follow rigify_parent. -/
def chain_member (p : RigObj) : RigObj → Bool
  | [] => false
  | x :: xs => if x :: xs = p then true else chain_member p xs

/-- src/utils/rig.py, rig_is_child(rig, parent, *, strict=False):
returns True if parent is None; otherwise, when rig is non-null and
strict is set, first replaces rig by rig.rigify_parent; then walks the
rigify_parent chain comparing against parent. -/
def rig_is_child (rig parent : Option RigObj) (strict : Bool := false) : Bool :=
  match parent with
  | none => true
  | some p =>
    let rig1 : Option RigObj :=
      match rig, strict with
      | some r, true => rigify_parent r
      | _, _ => rig
    match rig1 with
    | none => false
    | some r => chain_member p r

/-- The loop accepts exactly the nonempty suffixes of the starting chain. -/
theorem chain_member_iff (p r : RigObj) :
    chain_member p r = true ↔ p ≠ [] ∧ p <:+ r := by
  induction r with
  | nil =>
    simp only [chain_member]
    constructor
    · intro h; cases h
    · rintro ⟨hne, hsuf⟩
      exact absurd (List.suffix_nil.mp hsuf) hne
  | cons x xs ih =>
    simp only [chain_member]
    by_cases hxp : x :: xs = p
    · subst hxp
      simp
    · rw [if_neg hxp, ih]
      constructor
      · rintro ⟨hne, hsuf⟩
        exact ⟨hne, hsuf.trans (List.suffix_cons x xs)⟩
      · rintro ⟨hne, hsuf⟩
        rcases List.suffix_cons_iff.mp hsuf with h | h
        · exact absurd h.symm hxp
        · exact ⟨hne, h⟩

/-- Claim C8: rig_is_child(r, None) returns True for every r; with
strict=False, rig_is_child(r, r) returns True for every non-null r; and
rig_is_child(r, p, strict=s) returns True iff p is None, or p is
reachable by following rigify_parent links starting from r itself (when
s is False) or from the parent of r (when s is True and r is non-null).
In the chain model, reachability from a rig is being one of its nonempty
suffixes. -/
theorem rig_is_child_spec :
    (∀ (r : Option RigObj) (s : Bool), rig_is_child r none s = true) ∧
    (∀ r : RigObj, r ≠ [] → rig_is_child (some r) (some r) false = true) ∧
    (∀ (r p : Option RigObj) (s : Bool),
      rig_is_child r p s = true ↔
        p = none ∨ ∃ rl pl, r = some rl ∧ p = some pl ∧ pl ≠ [] ∧
          pl <:+ (if s then rl.tail else rl)) := by
  refine ⟨fun r s => rfl, fun r hr => ?_, fun r p s => ?_⟩
  · simp only [rig_is_child, chain_member_iff]
    exact ⟨hr, List.suffix_refl r⟩
  · cases p with
    | none => simp [rig_is_child]
    | some pl =>
      cases r with
      | none =>
        cases s <;> simp [rig_is_child]
      | some rl =>
        cases s with
        | false =>
          simp only [rig_is_child, chain_member_iff, if_false]
          constructor
          · rintro ⟨hne, hsuf⟩
            exact Or.inr ⟨rl, pl, rfl, rfl, hne, by simpa using hsuf⟩
          · rintro (h | ⟨rl', pl', hr', hp', hne, hsuf⟩)
            · cases h
            · cases hr'; cases hp'
              exact ⟨hne, by simpa using hsuf⟩
        | true =>
          simp only [rig_is_child]
          cases rl with
          | nil =>
            simp only [rigify_parent]
            constructor
            · intro h; cases h
            · rintro (h | ⟨rl', pl', hr', hp', hne, hsuf⟩)
              · cases h
              · cases hr'; cases hp'
                simp only [List.tail_nil, if_true] at hsuf
                exact absurd (List.suffix_nil.mp hsuf) hne
          | cons x xs =>
            cases xs with
            | nil =>
              simp only [rigify_parent]
              constructor
              · intro h; cases h
              · rintro (h | ⟨rl', pl', hr', hp', hne, hsuf⟩)
                · cases h
                · cases hr'; cases hp'
                  simp only [List.tail_cons, if_true] at hsuf
                  exact absurd (List.suffix_nil.mp hsuf) hne
            | cons y ys =>
              simp only [rigify_parent, chain_member_iff]
              constructor
              · rintro ⟨hne, hsuf⟩
                exact Or.inr ⟨x :: y :: ys, pl, rfl, rfl, hne, by simpa using hsuf⟩
              · rintro (h | ⟨rl', pl', hr', hp', hne, hsuf⟩)
                · cases h
                · cases hr'; cases hp'
                  exact ⟨hne, by simpa using hsuf⟩

/-- Witness for rig_is_child_spec: evaluated on the concrete rig chain
[1] (a parentless rig), discharging the nonemptiness hypothesis. -/
theorem rig_is_child_spec_witness :
    rig_is_child (some [1]) (some [1]) false = true :=
  rig_is_child_spec.2.1 [1] (by decide)

/-!
Section: src/__init__.py and src/ui.py: class registration

register_unregister_modules walks a list of modules; classes listed in a
module attribute named registry are registered inside a try/except that
prints a warning and continues, while a module attribute named register
is called as a plain function. src/ui.py defines such a register
function that loops over its classes calling register_class with no
try/except, so an exception there propagates.

A host class is modelled by its name plus whether register_class raises
on it; a module by its optional registry list, its submodule list, and
the optional class list its own register function registers directly.
-/

/-- A registerable host class: its name and whether registering it
raises. -/
structure PyClass where
  name : String
  fails : Bool
deriving DecidableEq

/-- Observable registration state: classes registered so far and warning
lines printed so far. -/
structure RegState where
  registered : List String
  warnings : List String
deriving DecidableEq

/-- A python module as seen by register_unregister_modules: an optional
registry class list, nested submodules, and the classes its own register
function registers directly (as src/ui.py does). -/
inductive PyModule where
  | mk (registry : Option (List PyClass)) (submodules : List PyModule)
      (registerFnClasses : Option (List PyClass)) : PyModule

/-- The registry loop of register_unregister_modules: each class is
registered inside try/except; a failure prints a warning and the loop
continues with the remaining classes. -/
def runRegistry (cs : List PyClass) (st : RegState) : RegState :=
  match cs with
  | [] => st
  | c :: rest =>
    if c.fails then
      runRegistry rest { st with warnings := st.warnings ++ [c.name] }
    else
      runRegistry rest { st with registered := st.registered ++ [c.name] }

/-- The register function of src/ui.py: register_class on each class in
order with no exception handler, so the first failure raises and aborts
the rest of the loop. Returns the state plus the escaped exception, if
any. -/
def runUiRegister (cs : List PyClass) (st : RegState) : RegState × Option String :=
  match cs with
  | [] => (st, none)
  | c :: rest =>
    if c.fails then (st, some c.name)
    else runUiRegister rest { st with registered := st.registered ++ [c.name] }

mutual

/-- register_unregister_modules for a single module: registry classes
first, then submodules recursively, then the module register function;
an exception from the latter two propagates. -/
def registerModule : PyModule → RegState → RegState × Option String
  | .mk reg subs fnCls, st =>
    let st1 := match reg with
      | some cs => runRegistry cs st
      | none => st
    match registerModules subs st1 with
    | (st2, some e) => (st2, some e)
    | (st2, none) =>
      match fnCls with
      | some cs => runUiRegister cs st2
      | none => (st2, none)

/-- register_unregister_modules over a module list: processing stops at
the first escaped exception. -/
def registerModules : List PyModule → RegState → RegState × Option String
  | [], st => (st, none)
  | m :: ms, st =>
    match registerModule m st with
    | (st1, none) => registerModules ms st1
    | (st1, some e) => (st1, some e)

end

/-- The module list of src: ui followed by generate, as in
src/init. The ui module has no registry; its register function
registers the Generate_WayRig operator class directly. -/
def uiStyleModule (cs : List PyClass) : PyModule := .mk none [] (some cs)

/-- Claim C7 counterexample: with the ui module holding a failing
Generate_WayRig class registered through its own register function, the
failure is not caught: the exception escapes register_unregister_modules
and the class of the following module is never registered, so
registration of the remaining classes does not proceed. -/
theorem register_failure_aborts_counterexample :
    registerModules
        [uiStyleModule [⟨"Generate_WayRig", true⟩],
         PyModule.mk (some [⟨"OtherOperator", false⟩]) [] none]
        ⟨[], []⟩ =
      (⟨[], []⟩, some "Generate_WayRig") ∧
    "OtherOperator" ∉
      (registerModules
        [uiStyleModule [⟨"Generate_WayRig", true⟩],
         PyModule.mk (some [⟨"OtherOperator", false⟩]) [] none]
        ⟨[], []⟩).1.registered := by
  constructor
  · rfl
  · decide

/-- Claim C7 (amended): for classes listed in a module registry,
register_unregister_modules catches each failure, logs a warning,
skips the class, and still registers every remaining non-failing
registry class; processing then continues with the following modules
without an exception. Classes registered by a module-level register
function (as in src/ui.py) are not protected this way. -/
theorem registry_failures_skipped (cs : List PyClass) (ms : List PyModule)
    (st : RegState) :
    registerModules (PyModule.mk (some cs) [] none :: ms) st =
      registerModules ms
        ⟨st.registered ++ (cs.filter (fun c => !c.fails)).map PyClass.name,
         st.warnings ++ (cs.filter (fun c => c.fails)).map PyClass.name⟩ := by
  have hrun : ∀ (cs : List PyClass) (st : RegState),
      runRegistry cs st =
        ⟨st.registered ++ (cs.filter (fun c => !c.fails)).map PyClass.name,
         st.warnings ++ (cs.filter (fun c => c.fails)).map PyClass.name⟩ := by
    intro cs
    induction cs with
    | nil => intro st; simp [runRegistry]
    | cons c rest ih =>
      intro st
      by_cases hc : c.fails
      · simp [runRegistry, hc, ih, List.filter]
      · simp [runRegistry, hc, ih, List.filter]
  simp [registerModules, registerModule, hrun]

/-- Witness for registry_failures_skipped: a registry with one failing
and one working class followed by no further modules; the working class
registers, the failing one is logged. -/
theorem registry_failures_skipped_witness :
    registerModules [PyModule.mk (some [⟨"BadOp", true⟩, ⟨"GoodOp", false⟩]) [] none]
        ⟨[], []⟩ =
      (⟨["GoodOp"], ["BadOp"]⟩, none) := by
  rw [registry_failures_skipped [⟨"BadOp", true⟩, ⟨"GoodOp", false⟩] [] ⟨[], []⟩]
  rfl

/-!
Section: src/ui.py: Generate_WayRig.execute

The operator body wraps generate.generate_rig in try/except: MetarigError
is handled by calling rigify_report_exception, any other exception by
self.report with a generic message, and success by an info report. The
name rigify_report_exception is not bound anywhere in the module scope
of src/ui.py (not defined there and not imported), so evaluating the
MetarigError handler raises NameError, which no enclosing handler
catches.
-/

/-- The names bound at module scope in src/ui.py: its imports (bpy,
MetarigError, generate) and its own definitions. -/
def uiModuleNames : List String :=
  ["bpy", "MetarigError", "generate", "is_metarig", "Generate_WayRig",
   "add_wayrig_to_menu", "classes", "register", "unregister"]

/-- The outcome of the generate.generate_rig call inside execute. -/
inductive GenOutcome where
  | ok (targetName : String)
  | metarigError (msg : String)
  | unexpectedError (msg : String)
deriving DecidableEq

/-- A report emitted through self.report. -/
inductive Report where
  | info (msg : String)
  | error (msg : String)
deriving DecidableEq

/-- The observable result of Generate_WayRig.execute: either the method
finishes, having emitted its reports, or an exception escapes it. -/
inductive ExecResult where
  | finished (reports : List Report)
  | raised (exn : String) (reports : List Report)
deriving DecidableEq

/-- src/ui.py lines 30 to 49, Generate_WayRig.execute: on success report
the generated target name; on MetarigError evaluate the handler body,
whose call of rigify_report_exception resolves the name in the module
scope; on any other exception report a generic error message. -/
def execute (gen : GenOutcome) : ExecResult :=
  match gen with
  | .ok target =>
    .finished [.info ("Successfully generated: \"" ++ target ++ "\"")]
  | .metarigError _ =>
    if uiModuleNames.contains "rigify_report_exception" then
      .finished [.error "reported via rigify_report_exception"]
    else
      .raised "NameError: name rigify_report_exception is not defined" []
  | .unexpectedError msg =>
    .finished [.error ("Generation has thrown an exception: " ++ msg)]

/-- Claim C1: when generate_rig raises MetarigError, the handler itself
raises NameError (rigify_report_exception is unbound in src/ui.py), so
the configuration error message is never reported and an exception
escapes execute; unexpected exceptions, by contrast, are caught and
reported generically, and success reports the target identity. -/
theorem execute_metarig_error_escapes :
    execute (.metarigError "Heel bone not found.") =
      .raised "NameError: name rigify_report_exception is not defined" [] ∧
    execute (.unexpectedError "boom") =
      .finished [.error "Generation has thrown an exception: boom"] ∧
    execute (.ok "RIG-metarig") =
      .finished [.info "Successfully generated: \"RIG-metarig\""] :=
  ⟨rfl, rfl, rfl⟩

/-!
Section: src/rigs/WayRig/face/skin_clamshell_eyelid.py: create_sample

The function creates one edit bone named EyeLid_Top and stores it in
its bones dictionary under the key EyeLid_Top, then switches to object
mode and immediately evaluates obj.pose.bones with the subscript
bones of key Bone: a dictionary lookup of a key that was never inserted.
-/

/-- Armature sample state: the edit bones created and the rig type tags
assigned to pose bones. -/
structure SampleState where
  editBones : List String
  taggedTypes : List (String × String)
deriving DecidableEq

/-- Python dictionary lookup over an association list. -/
def dictLookup (d : List (String × String)) (k : String) : Option String :=
  (d.find? (fun kv => kv.1 == k)).map (fun kv => kv.2)

/-- src/rigs/WayRig/face/skin_clamshell_eyelid.py lines 227 to 263,
create_sample(obj): creates the edit bone EyeLid_Top, records it in the
bones dict under key EyeLid_Top, then reads the dict at key Bone to
fetch the pose bone it tags with the rig type; a missing key raises
KeyError. -/
def clamshell_create_sample (obj : SampleState) : Except String SampleState :=
  let armBones := obj.editBones ++ ["EyeLid_Top"]
  let bonesDict : List (String × String) := [("EyeLid_Top", "EyeLid_Top")]
  match dictLookup bonesDict "Bone" with
  | none => .error "KeyError: Bone"
  | some b =>
    .ok { editBones := armBones,
          taggedTypes := obj.taggedTypes ++ [(b, "WayRig.face.skin_clamshell_eyelid")] }

/-- Claim C6: calling the clamshell eyelid create_sample always raises
KeyError on the lookup of key Bone in a dict whose only key is
EyeLid_Top; it never reaches the tagging step, contradicting the claim
that create_sample succeeds and tags the anchor bone. -/
theorem clamshell_create_sample_raises (obj : SampleState) :
    clamshell_create_sample obj = .error "KeyError: Bone" :=
  rfl

/-!
Section: src/rigs/WayRig/limbs/leg_plus.py: component discovery

Rig.find_org_bones first delegates to the base limb discovery (with
min_valid_orgs = max_valid_orgs = 4) and then searches the children of
the third main bone (the foot) for the first unconnected, childless
child that is not a rig base bone, taking it as the heel; if none is
found it raises a configuration error. The base class and the engine
are not part of this repository snapshot and are modelled from the
specification.
-/

/-- A metarig bone as inspected by the heel search: its name, its
use_connect flag, whether it has children, and whether it is a rig base
bone (carries its own rig type). -/
structure MRBone where
  name : String
  use_connect : Bool
  hasChildren : Bool
  isRigBase : Bool
deriving DecidableEq

/-- A structured configuration error (MetarigError): the offending bone
name and a human-readable message. -/
structure RigError where
  bone : String
  message : String
deriving DecidableEq

/-- The input the leg component claims: the organizational chain
starting at its base bone, and the metarig children of the third chain
bone (the foot). -/
structure LegInput where
  chain : List String
  footChildren : List MRBone
deriving DecidableEq

/-- Organizational bones found by the leg component. -/
structure LegBones where
  main : List String
  heel : String
deriving DecidableEq

/-- Modelled from the spec: BaseLimbRig.find_org_bones, from the limb
base class that is not under src. The leg sets min_valid_orgs and
max_valid_orgs to 4, so a claimed chain whose length is not exactly 4
raises a fatal configuration error identifying the offending bone (the
component base bone, the first bone of the claimed chain). -/
def base_find_org_bones (inp : LegInput) : Except RigError (List String) :=
  if inp.chain.length = 4 then .ok inp.chain
  else .error ⟨inp.chain.headD "", "Input to rig type must be a chain of 4 bones."⟩

/-- The heel predicate of src/rigs/WayRig/limbs/leg_plus.py line 37: an
unconnected, childless child of the foot that is not a rig base bone. -/
def isHeelCandidate (b : MRBone) : Bool :=
  !b.use_connect && !b.hasChildren && !b.isRigBase

/-- src/rigs/WayRig/limbs/leg_plus.py lines 33 to 43, Rig.find_org_bones:
the base discovery first, then the first heel candidate among the foot
children; raise_error (which attaches the component base bone) when no
candidate exists. -/
def leg_find_org_bones (inp : LegInput) : Except RigError LegBones :=
  match base_find_org_bones inp with
  | .error e => .error e
  | .ok main =>
    match inp.footChildren.find? isHeelCandidate with
    | some b => .ok ⟨main, b.name⟩
    | none => .error ⟨inp.chain.headD "", "Heel bone not found."⟩

/-- The target armature: the set of generated bones, in creation order. -/
structure Armature where
  bones : List String
deriving DecidableEq

/-- Modelled from the spec: the generation engine (generate.py, not under
src) runs component discovery through find_org_bones before any build
stage; only the generate_bones stage, which runs strictly after
discovery of every component, creates bones on the target armature, so a
discovery error aborts generation with the armature untouched. The
bones the leg would create are abstracted as newBones. -/
def generate_leg (arm : Armature) (inp : LegInput) (newBones : List String) :
    Armature × Option RigError :=
  match leg_find_org_bones inp with
  | .error e => (arm, some e)
  | .ok _ => (⟨arm.bones ++ newBones⟩, none)

/-- Claim C2: a leg whose claimed chain does not have exactly 4 bones,
or whose foot bone has no unconnected childless non-rig-base child to
serve as heel, fails discovery with a fatal configuration error naming
the offending bone (the component base bone, the first bone of the
claimed chain), and generation leaves the target armature exactly as it
was: no bone has been created. -/
theorem leg_discovery_atomic (arm : Armature) (inp : LegInput)
    (newBones : List String) (hbase : inp.chain ≠ [])
    (hbad : inp.chain.length ≠ 4 ∨ inp.footChildren.find? isHeelCandidate = none) :
    ∃ e : RigError, generate_leg arm inp newBones = (arm, some e) ∧
      inp.chain.head? = some e.bone := by
  have hhd : inp.chain.head? = some (inp.chain.headD "") := by
    rcases h : inp.chain with _ | ⟨x, xs⟩
    · exact absurd h hbase
    · rfl
  by_cases hlen : inp.chain.length = 4
  · rcases hbad with h | hheel
    · exact absurd hlen h
    · refine ⟨⟨inp.chain.headD "", "Heel bone not found."⟩, ?_, hhd⟩
      simp [generate_leg, leg_find_org_bones, base_find_org_bones, hlen, hheel]
  · refine ⟨⟨inp.chain.headD "", "Input to rig type must be a chain of 4 bones."⟩, ?_, hhd⟩
    simp [generate_leg, leg_find_org_bones, base_find_org_bones, hlen]

/-- Witness for leg_discovery_atomic: a 3-bone leg chain (the spec
example of a malformed metarig) on an armature already holding a root
bone; discovery errors naming the thigh and the armature is unchanged. -/
theorem leg_discovery_atomic_witness :
    ∃ e : RigError,
      generate_leg ⟨["root"]⟩ ⟨["Thigh", "Shin", "Foot"], []⟩ ["CTRL-Foot"] =
        (⟨["root"]⟩, some e) ∧
      (⟨["Thigh", "Shin", "Foot"], []⟩ : LegInput).chain.head? = some e.bone :=
  leg_discovery_atomic ⟨["root"]⟩ ⟨["Thigh", "Shin", "Foot"], []⟩ ["CTRL-Foot"]
    (by decide) (Or.inl (by decide))

/-!
Section: src/rigs/WayRig/face/skin_eye_basic.py: shared eye cluster control

Rig.initialize (the first build stage) creates an EyeClusterControl only
when the cluster_control attribute is still unset (it defaults to None as
a class attribute); EyeClusterControl.find_cluster_rigs then installs the
new instance as the cluster_control of its owner and of every other eye
Rig among the children of the owner rigify_parent.

The sibling group is modelled by the parent component child list: child
index i is an eye exactly when isEye i is true (isinstance of the eye
Rig class), and the first stage pass visits the eye children in index
order. Instances are numbered in creation order, so instance 0 is the
one created by the first eye to run its first stage.
-/

/-- State of the first build stage over the sibling group: the
cluster_control attribute of each child (by index) and the number of
EyeClusterControl instances constructed so far. -/
structure EyeInitState where
  clusterOf : Nat → Option Nat
  instancesCreated : Nat

/-- skin_eye_basic.py lines 364 to 379, EyeClusterControl.find_cluster_rigs:
the new instance cid (owned by child owner) assigns itself to the owner
cluster_control and to every sibling eye rig child of the shared parent. -/
def find_cluster_rigs (isEye : Nat → Bool) (owner cid : Nat)
    (clusterOf : Nat → Option Nat) : Nat → Option Nat :=
  fun i => if i = owner ∨ isEye i then some cid else clusterOf i

/-- skin_eye_basic.py lines 39 to 56, the cluster part of Rig.initialize
for eye child i: if cluster_control is still unset, construct an
EyeClusterControl (whose constructor runs find_cluster_rigs); otherwise
do nothing. -/
def eye_init_step (isEye : Nat → Bool) (st : EyeInitState) (i : Nat) :
    EyeInitState :=
  if (st.clusterOf i).isSome then st
  else ⟨find_cluster_rigs isEye i st.instancesCreated st.clusterOf,
        st.instancesCreated + 1⟩

/-- The eye children of the shared parent, in the order the stage pass
visits them: the indices below the child count whose component is an eye
Rig. -/
def eye_children (isEye : Nat → Bool) (n : Nat) : List Nat :=
  (List.range n).filter isEye

/-- The first stage pass over the eye children of one parent: every
cluster_control starts unset (the class attribute is None) and no
instance exists yet. -/
def run_eye_init_stage (isEye : Nat → Bool) (n : Nat) : EyeInitState :=
  (eye_children isEye n).foldl (eye_init_step isEye) ⟨fun _ => none, 0⟩

/-- Once every eye child already holds a cluster_control, the remaining
steps of the stage pass change nothing. -/
theorem eye_init_steps_noop (isEye : Nat → Bool) (l : List Nat)
    (st : EyeInitState) (h : ∀ j ∈ l, (st.clusterOf j).isSome) :
    l.foldl (eye_init_step isEye) st = st := by
  induction l with
  | nil => rfl
  | cons j rest ih =>
    have hj : (st.clusterOf j).isSome := h j (List.mem_cons_self j rest)
    have hstep : eye_init_step isEye st j = st := by
      simp [eye_init_step, hj]
    rw [List.foldl_cons, hstep]
    exact ih (fun k hk => h k (List.mem_cons_of_mem j hk))

/-- Claim C3: over a group of sibling eye components sharing one parent,
the first stage pass constructs exactly one EyeClusterControl — by the
first member to run the stage — and afterwards every member of the
group holds that same instance (instance 0) as its cluster_control: no
later sibling recreates it. -/
theorem eye_cluster_control_shared (isEye : Nat → Bool) (n : Nat)
    (h : eye_children isEye n ≠ []) :
    (run_eye_init_stage isEye n).instancesCreated = 1 ∧
    ∀ i ∈ eye_children isEye n,
      (run_eye_init_stage isEye n).clusterOf i = some 0 := by
  rcases he : eye_children isEye n with _ | ⟨e0, rest⟩
  · exact absurd he h
  · have hmem : ∀ i ∈ eye_children isEye n, isEye i := by
      intro i hi
      exact (List.mem_filter.mp hi).2
    have hstep0 : eye_init_step isEye ⟨fun _ => none, 0⟩ e0 =
        ⟨find_cluster_rigs isEye e0 0 (fun _ => none), 1⟩ := by
      simp [eye_init_step]
    have hall : ∀ i ∈ eye_children isEye n,
        find_cluster_rigs isEye e0 0 (fun _ => none) i = some 0 := by
      intro i hi
      simp [find_cluster_rigs, hmem i hi]
    have hrest : ∀ j ∈ rest, j ∈ eye_children isEye n := by
      intro j hj
      rw [he]
      exact List.mem_cons_of_mem e0 hj
    have hfold :
        rest.foldl (eye_init_step isEye)
            ⟨find_cluster_rigs isEye e0 0 (fun _ => none), 1⟩ =
          ⟨find_cluster_rigs isEye e0 0 (fun _ => none), 1⟩ := by
      refine eye_init_steps_noop isEye rest _ ?_
      intro j hj
      have := hall j (hrest j hj)
      simp only [this]
      rfl
    have hrun : run_eye_init_stage isEye n =
        ⟨find_cluster_rigs isEye e0 0 (fun _ => none), 1⟩ := by
      unfold run_eye_init_stage
      rw [he, List.foldl_cons, hstep0, hfold]
    rw [hrun]
    refine ⟨rfl, fun i hi => hall i ?_⟩
    rw [he]
    exact hi

/-- A concrete sibling group for the witness: children 0 and 1 of the
parent are both eyes. -/
def twoEyeSiblings : Nat → Bool := fun i => i == 0 || i == 1

/-- Witness for eye_cluster_control_shared: two sibling eyes (children 0
and 1 of the parent): one instance is created, and the second,
later-processed eye references instance 0, created by the first. -/
theorem eye_cluster_control_shared_witness :
    (run_eye_init_stage twoEyeSiblings 2).instancesCreated = 1 ∧
    (run_eye_init_stage twoEyeSiblings 2).clusterOf 1 = some 0 :=
  ⟨(eye_cluster_control_shared twoEyeSiblings 2 (by decide)).1,
   (eye_cluster_control_shared twoEyeSiblings 2 (by decide)).2 1 (by decide)⟩

/-!
Section: src/rigs/WayRig/face/skin_eye_basic.py: Bone Set writes of
EyeClusterControl.generate_bones

lines 453 to 464: with more than one clustered eye, the sub-component
creates a master bone, then, for every rig in rig_list, creates a child
control and assigns it to rig.bones.ctrl.target — an entry in that rig
Bone Set; with a single eye it assigns owner.bones.ctrl.target. The
members of rig_list are the owner (first) followed by the owner sibling
eye rigs, so the assignments write into Bone Sets of components other
than the owner of the writing sub-component.
-/

/-- One Bone Set write: the component owning the writing code, the
component whose Bone Set receives the entry, and the symbolic path
written. -/
structure BSWrite where
  writer : Nat
  target : Nat
  path : String
deriving DecidableEq

/-- skin_eye_basic.py lines 453 to 464, the Bone Set writes performed by
EyeClusterControl.generate_bones, given rig_list (owner first, then the
sibling eyes found by find_cluster_rigs). With rig_count greater than 1
each member rig receives a ctrl.target entry; otherwise only the owner
does. -/
def cluster_generate_bones_writes (rig_list : List Nat) : List BSWrite :=
  match rig_list with
  | [] => []
  | owner :: rest =>
    if (owner :: rest).length > 1 then
      (owner :: rest).map (fun r => ⟨owner, r, "ctrl.target"⟩)
    else
      [⟨owner, owner, "ctrl.target"⟩]

/-- Claim C4 counterexample: for the two-eye cluster with owner 0 and
sibling 1, generate_bones writes a ctrl.target entry into the Bone Set
of component 1 although the writing sub-component is owned by component
0 — a component writes an entry into another component Bone Set. -/
theorem cluster_writes_foreign_counterexample :
    ¬ ∀ w ∈ cluster_generate_bones_writes [0, 1], w.target = w.writer := by
  decide

/-- Claim C4 (amended): the writes of EyeClusterControl.generate_bones
stay within its cluster: every write is performed on behalf of the
owner (the first member of rig_list) and targets the Bone Set of a
member of rig_list, at path ctrl.target — writes into the Bone Sets of
sibling eyes do occur whenever the cluster has more than one member. -/
theorem cluster_writes_stay_in_cluster (rig_list : List Nat) :
    ∀ w ∈ cluster_generate_bones_writes rig_list,
      w.writer = rig_list.headD 0 ∧ w.target ∈ rig_list ∧ w.path = "ctrl.target" := by
  match rig_list with
  | [] => intro w hw; cases hw
  | owner :: rest =>
    intro w hw
    simp only [cluster_generate_bones_writes] at hw
    by_cases hlen : (owner :: rest).length > 1
    · rw [if_pos hlen] at hw
      rcases List.mem_map.mp hw with ⟨r, hr, hwr⟩
      subst hwr
      exact ⟨rfl, hr, rfl⟩
    · rw [if_neg hlen] at hw
      rcases List.mem_singleton.mp hw with rfl
      exact ⟨rfl, List.mem_cons_self owner rest, rfl⟩

/-- Witness for cluster_writes_stay_in_cluster: the write into the Bone
Set of sibling eye 1 in the two-eye cluster is a write into a cluster
member Bone Set, performed on behalf of owner 0. -/
theorem cluster_writes_stay_in_cluster_witness :
    (⟨0, 1, "ctrl.target"⟩ : BSWrite).writer = ([0, 1] : List Nat).headD 0 ∧
    (⟨0, 1, "ctrl.target"⟩ : BSWrite).target ∈ ([0, 1] : List Nat) ∧
    (⟨0, 1, "ctrl.target"⟩ : BSWrite).path = "ctrl.target" :=
  cluster_writes_stay_in_cluster [0, 1] ⟨0, 1, "ctrl.target"⟩ (by decide)

/-!
Section: src/rigs/WayRig/spines/super_head.py

Rig.initialize derives has_neck (organizational chain longer than 1) and
long_neck (longer than 3). The generate_bones stage methods create the
neck control (only with a neck), the head control (always), the
neck_bend control (only for long necks), the FK-follow mechanism bones
rot_neck (with a neck) and rot_head (always), the stretch mechanism
(with a neck), the IK and middle mechanism chains, the tweak chain, and,
when make_bendable_head is set, the head top tweak and end handle. The
deform chain and the helper bone factories (make_mch_follow_bone,
make_tweak_bone) live in the spine base class, which is not under src:
per the spec, the deform chain has one deform bone per organizational
bone, and helper names are modelled deterministically.
-/

/-- rigify.utils.naming.make_derived_name, modelled deterministically:
an external naming utility (out of scope per the spec) deriving a new
bone name from a base name, a kind prefix, and a suffix. -/
def make_derived_name (org kind : String) (suffix : String := "") : String :=
  kind ++ "-" ++ org ++ suffix

/-- The parameters of the super_head rig read by the embedded stage
methods. make_bendable_foot is not added by super_head (it comes from
the leg rig type through the shared parameter group). -/
structure HeadParams where
  world_align_head : Bool
  make_bendable_head : Bool
  make_bendable_foot : Bool
deriving DecidableEq

/-- super_head.py lines 29 to 33, Rig.initialize. -/
def has_neck (orgs : List String) : Bool := orgs.length > 1

/-- super_head.py line 32, Rig.initialize. -/
def long_neck (orgs : List String) : Bool := orgs.length > 3

/-- The Bone Set of the super_head component after generate_bones. -/
structure HeadBones where
  ctrl_neck : Option String
  ctrl_head : String
  ctrl_neck_bend : Option String
  ctrl_tweak : List String
  mch_rot_neck : Option String
  mch_rot_head : String
  mch_stretch : Option String
  mch_ik : List String
  mch_chain : List String
  deform : List String
  bend_top_tweak : Option String
  bend_handle_end : Option String
deriving DecidableEq

/-- super_head.py generate_bones stage (make_control_chain lines 62 to
75, make_mch_control_bones lines 203 to 211, make_mch_ik_chain,
make_mch_chain, make_tweak_chain, make_head_bend_bones lines 392 to
405); the deform chain is modelled from the spec (one deform bone per
organizational bone, created by the spine base class not under src),
and so is the naming inside make_mch_follow_bone and make_tweak_bone. -/
def super_head_generate_bones (orgs : List String) (params : HeadParams) :
    HeadBones :=
  let lastOrg := orgs.getLastD ""
  { ctrl_neck := if has_neck orgs then some "Neck" else none
  , ctrl_head := make_derived_name lastOrg "ctrl"
  , ctrl_neck_bend := if long_neck orgs then some "Neck_bend" else none
  , ctrl_tweak := orgs.dropLast.map (fun o => make_derived_name o "ctrl" "_tweak")
  , mch_rot_neck :=
      if has_neck orgs then
        some (make_derived_name ("ROT-" ++ make_derived_name (orgs.headD "") "ctrl") "mch")
      else none
  , mch_rot_head := make_derived_name ("ROT-" ++ make_derived_name lastOrg "ctrl") "mch"
  , mch_stretch :=
      if has_neck orgs then
        some (make_derived_name ("STR-" ++ make_derived_name (orgs.headD "") "ctrl") "mch")
      else none
  , mch_ik := if long_neck orgs then orgs.dropLast.map (fun o => make_derived_name o "mch" "_IK")
              else []
  , mch_chain := (orgs.drop 1).dropLast.map (fun o => make_derived_name o "mch")
  , deform := orgs.map (fun o => make_derived_name o "def")
  , bend_top_tweak :=
      if params.make_bendable_head then some (make_derived_name lastOrg "ctrl" "_top_tweak")
      else none
  , bend_handle_end :=
      if params.make_bendable_head then some (make_derived_name lastOrg "mch" "_handle_end")
      else none }

/-- All bones created by the generate_bones stage of super_head. -/
def headFlatten (b : HeadBones) : List String :=
  b.ctrl_neck.toList ++ [b.ctrl_head] ++ b.ctrl_neck_bend.toList ++ b.ctrl_tweak ++
    b.mch_rot_neck.toList ++ [b.mch_rot_head] ++ b.mch_stretch.toList ++
    b.mch_ik ++ b.mch_chain ++ b.deform ++
    b.bend_top_tweak.toList ++ b.bend_handle_end.toList

/-- A constraint created by a rig_bones stage method. -/
structure Constraint where
  owner : String
  kind : String
  subtarget : String
deriving DecidableEq

/-- super_head.py lines 448 to 459, Rig.rig_head_bend_bones: the
rig_bones stage constraints for the head bend bones, gated on the
parameter make_bendable_foot: a STRETCH_TO of the last deform bone to
the head top tweak and a COPY_SCALE on the end handle targeting the
head control. -/
def rig_head_bend_bones (orgs : List String) (params : HeadParams) :
    List Constraint :=
  if params.make_bendable_foot then
    let lastOrg := orgs.getLastD ""
    [ ⟨make_derived_name lastOrg "def", "STRETCH_TO",
        make_derived_name lastOrg "ctrl" "_top_tweak"⟩,
      ⟨make_derived_name lastOrg "mch" "_handle_end", "COPY_SCALE",
        make_derived_name lastOrg "ctrl"⟩ ]
  else []

/-- super_head.py lines 471 to 483, Rig.add_parameters: the parameter
names this rig type itself adds to the shared parameter group. -/
def super_head_added_params : List String :=
  ["world_align_head", "make_bendable_head"]

/-- Claim C5: for a 3-bone organizational chain tagged with the head rig
type, generate_bones creates a neck control (the chain is longer than
1), a head control (always), the FK-follow mechanism bones rot_neck and
rot_head, and one deform bone per organizational bone; no neck_bend
control is created (the chain is not longer than 3). -/
theorem super_head_three_bone_chain (orgs : List String) (params : HeadParams)
    (h : orgs.length = 3) :
    (super_head_generate_bones orgs params).ctrl_neck.isSome = true ∧
    (super_head_generate_bones orgs params).ctrl_head ∈
      headFlatten (super_head_generate_bones orgs params) ∧
    (super_head_generate_bones orgs params).mch_rot_neck.isSome = true ∧
    (super_head_generate_bones orgs params).mch_rot_head ∈
      headFlatten (super_head_generate_bones orgs params) ∧
    (super_head_generate_bones orgs params).deform.length = orgs.length ∧
    (super_head_generate_bones orgs params).ctrl_neck_bend = none := by
  have hneck : has_neck orgs = true := by simp [has_neck, h]
  have hlong : long_neck orgs = false := by simp [long_neck, h]
  refine ⟨?_, ?_, ?_, ?_, ?_, ?_⟩
  · simp [super_head_generate_bones, hneck]
  · simp [headFlatten]
  · simp [super_head_generate_bones, hneck]
  · simp [headFlatten]
  · simp [super_head_generate_bones]
  · simp [super_head_generate_bones, hlong]

/-- Witness for super_head_three_bone_chain: the 3-bone sample chain of
super_head.py create_sample (Neck_01, Neck_02, Head) with the default
parameters. -/
theorem super_head_three_bone_chain_witness :
    (super_head_generate_bones ["Neck_01", "Neck_02", "Head"]
        ⟨true, true, true⟩).ctrl_neck.isSome = true ∧
    (super_head_generate_bones ["Neck_01", "Neck_02", "Head"]
        ⟨true, true, true⟩).ctrl_head ∈
      headFlatten (super_head_generate_bones ["Neck_01", "Neck_02", "Head"]
        ⟨true, true, true⟩) ∧
    (super_head_generate_bones ["Neck_01", "Neck_02", "Head"]
        ⟨true, true, true⟩).mch_rot_neck.isSome = true ∧
    (super_head_generate_bones ["Neck_01", "Neck_02", "Head"]
        ⟨true, true, true⟩).mch_rot_head ∈
      headFlatten (super_head_generate_bones ["Neck_01", "Neck_02", "Head"]
        ⟨true, true, true⟩) ∧
    (super_head_generate_bones ["Neck_01", "Neck_02", "Head"]
        ⟨true, true, true⟩).deform.length =
      (["Neck_01", "Neck_02", "Head"] : List String).length ∧
    (super_head_generate_bones ["Neck_01", "Neck_02", "Head"]
        ⟨true, true, true⟩).ctrl_neck_bend = none :=
  super_head_three_bone_chain ["Neck_01", "Neck_02", "Head"] ⟨true, true, true⟩ rfl

/-- Claim C10: the head-bend tweak and handle bones are created by
generate_bones exactly when make_bendable_head is set, but the
rig_bones-stage constraints for them (the STRETCH_TO and the
COPY_SCALE) are created exactly when the unrelated leg parameter
make_bendable_foot is set — a parameter super_head add_parameters does
not itself define — so with make_bendable_head true and
make_bendable_foot false the bend bones exist without their
constraints. -/
theorem head_bend_constraints_gated_on_foot (orgs : List String)
    (params : HeadParams) :
    (super_head_generate_bones orgs params).bend_top_tweak.isSome =
      params.make_bendable_head ∧
    (super_head_generate_bones orgs params).bend_handle_end.isSome =
      params.make_bendable_head ∧
    (rig_head_bend_bones orgs params).map Constraint.kind =
      (if params.make_bendable_foot then ["STRETCH_TO", "COPY_SCALE"] else []) ∧
    super_head_added_params.contains "make_bendable_foot" = false := by
  refine ⟨?_, ?_, ?_, by decide⟩
  · by_cases hp : params.make_bendable_head <;>
      simp [super_head_generate_bones, hp]
  · by_cases hp : params.make_bendable_head <;>
      simp [super_head_generate_bones, hp]
  · by_cases hp : params.make_bendable_foot <;>
      simp [rig_head_bend_bones, hp]

/-!
Section: src/rigs/WayRig/limbs/bendy_chain.py

parent_mch_handles (a parent_bones stage method, lines 133 to 142)
fetches the parent of the first organizational bone and substitutes
ROOT_NAME when there is none, then parents every MCH handle to it.
configure_org_bones (a rig_bones stage method, lines 208 to 215)
evaluates the parent name of the first organizational bone with no None
check, so a missing parent raises AttributeError there; with a parent
present it adds a COPY_SCALE constraint on every organizational bone.
-/

/-- Modelled from the spec: ROOT_NAME, imported from the naming utility
module that is not under src — the name of the root bone every
generated rig receives. -/
def ROOT_NAME : String := "root"

/-- The bendy_chain input relevant to the two stage methods: the
organizational chain and the parent bone, if any, of its first bone. -/
structure BendyInput where
  orgs : List String
  firstOrgParent : Option String
deriving DecidableEq

/-- bendy_chain.py lines 33 to 47, Rig.make_mch_chain: one MCH tweak
handle per organizational bone plus one end handle at the tail of the
last one. -/
def make_mch_chain (orgs : List String) : List String :=
  orgs.map (fun o => make_derived_name o "mch" "_tweak") ++
    (match orgs.getLast? with
     | some o => [make_derived_name o "mch" "_end_tweak"]
     | none => [])

/-- bendy_chain.py lines 133 to 142, Rig.parent_mch_handles: the parent
of the first organizational bone, with ROOT_NAME substituted when that
bone has no parent, becomes the parent of every MCH handle. Returns the
(bone, parent) assignments performed. -/
def parent_mch_handles (inp : BendyInput) : List (String × String) :=
  let parent_name :=
    match inp.firstOrgParent with
    | none => ROOT_NAME
    | some p => p
  (make_mch_chain inp.orgs).map (fun m => (m, parent_name))

/-- bendy_chain.py lines 208 to 215, Rig.configure_org_bones: reads the
name attribute of the parent of the first organizational bone with no
None check — an AttributeError when there is no parent — then adds a
COPY_SCALE constraint targeting it on every organizational bone. (The
volume-preservation drivers added afterwards do not affect the
dereference and are omitted.) -/
def configure_org_bones (inp : BendyInput) : Except String (List Constraint) :=
  match inp.firstOrgParent with
  | none => .error "AttributeError: NoneType object has no attribute name"
  | some p => .ok (inp.orgs.map (fun o => ⟨o, "COPY_SCALE", p⟩))

/-- Whether an Except value is a success. -/
def excOk {ε α : Type} : Except ε α → Bool
  | .ok _ => true
  | .error _ => false

/-- Claim C9: the parent_bones stage tolerates a first organizational
bone without parent — every MCH handle is parented to the substituted
parent name, which is the root bone when no parent exists — while the
rig_bones stage succeeds exactly when that parent exists, so on a chain
whose first organizational bone has no parent configure_org_bones
raises (its error branch is reachable, as the concrete no-parent chain
shows). -/
theorem bendy_chain_parent_dereference (inp : BendyInput) :
    ((parent_mch_handles inp).all
        (fun pr => pr.2 == inp.firstOrgParent.getD ROOT_NAME)) = true ∧
    excOk (configure_org_bones inp) = inp.firstOrgParent.isSome ∧
    configure_org_bones ⟨["Bone_01"], none⟩ =
      .error "AttributeError: NoneType object has no attribute name" := by
  refine ⟨?_, ?_, rfl⟩
  · rcases inp with ⟨orgs, fp⟩
    cases fp <;> simp [parent_mch_handles, Option.getD]
  · rcases inp with ⟨orgs, fp⟩
    cases fp <;> simp [configure_org_bones, excOk]

end WayRig
